import Mathlib

/-!
Shallow embedding of the macula MPT proof-trace engine
(src/macula/mpt_proof_trace.py, step fields from src/macula/step.py).

Byte strings are List Nat (one entry per byte). Python integers are
unbounded, and the uint256 views used by the source bound-check on
construction only, with bitwise and shift operators falling back to plain
int arithmetic; the embedding therefore uses Nat shifts without any
reduction modulo 2 ^ 256, exactly as the source computes.

The list codec (rlp_decode_list, rlp_encode_list) and the node hash
(mpt_hash) are TODO stubs in the source; the spec (section 6) treats them
as fixed external primitives. Modelled from the spec: they appear here as
opaque function parameters that every theorem quantifies over.

Assertion failures, exceptions and the implicit None fall-through returns
of the source are all modelled as the Option value none.
-/

/-- Big-endian interpretation of a byte string, as in int.from_bytes. -/
def bytes_to_nat_be : List Nat → Nat
  | [] => 0
  | b :: bs => b * 256 ^ bs.length + bytes_to_nat_be bs

/-- Big-endian byte string of a given length, as in int.to_bytes (value part). -/
def nat_to_bytes_be : Nat → Nat → List Nat
  | _, 0 => []
  | n, len + 1 => nat_to_bytes_be (n / 256) len ++ [n % 256]

/-- Python bytes.ljust(32): pad on the right up to 32 bytes with the
default fill byte, which is the ASCII space 0x20 (not zero). -/
def ljust32 (bs : List Nat) : List Nat := bs ++ List.replicate (32 - bs.length) 0x20

/-- Python int() applied to a one-byte bytes object accepts only an ASCII
decimal digit; anything else raises ValueError (modelled as none). -/
def ascii_digit (b : Nat) : Option Nat :=
  if 0x30 ≤ b ∧ b ≤ 0x39 then some (b - 0x30) else none

/-- Python int() applied to a bytes object parses it as an ASCII decimal
literal; an empty or non-digit string raises ValueError (none). -/
def int_of_ascii_digits (bs : List Nat) : Option Nat :=
  if bs = [] then none
  else bs.foldl (fun acc b => acc.bind fun a => (ascii_digit b).map fun d => a * 10 + d)
    (some 0)

/-- Python int.to_bytes(length=len): raises OverflowError when the value
does not fit (none). -/
def to_bytes_be_checked (n len : Nat) : Option (List Nat) :=
  if n < 256 ^ len then some (nat_to_bytes_be n len) else none

/-- decode_path from the source: hex-prefix decoding of an encoded path.
Returns (terminating, path value with the path in the most significant
nibbles, nibble count); asserts are modelled as none. Because the source
pads with bytes.ljust(32), whose default fill byte is the ASCII space,
the returned value carries 0x20 bytes (not zeros) below the path nibbles
whenever the encoding is shorter than 33 bytes. -/
def decode_path : List Nat → Option (Bool × Nat × Nat)
  | [] => some (false, 0, 0)
  | b0 :: rest =>
    if rest.length + 1 ≤ 33 then
      let flag_nibble := (b0 &&& 0xF0) >>> 4
      let terminating : Bool := (flag_nibble &&& 2) != 0
      let evenlen : Bool := (flag_nibble &&& 1) == 0
      if (flag_nibble &&& 12) ≠ 0 then none
      else
        let path_u256 := bytes_to_nat_be (ljust32 rest)
        let path_nibble_len := rest.length * 2
        if evenlen then some (terminating, path_u256, path_nibble_len)
        else
          if path_nibble_len < 32 then
            some (terminating, (path_u256 >>> 4) ||| ((b0 &&& 0xF) <<< 252),
              path_nibble_len + 1)
          else none
    else none

/-- encode_path from the source, byte for byte. The source folds the least
significant nibble of the path value into the flag byte for odd lengths,
then rebinds the name path to the single flag byte, so the later line
int(path) parses that byte as an ASCII decimal literal and the shifted
remainder of the actual path is discarded. For lengths over 64 nibbles
the shift count 256 - path_len*4 is negative and Python raises
ValueError (none). -/
def encode_path (path : Nat) (path_len : Nat) (terminating : Bool) : Option (List Nat) :=
  let first_byte0 := if path_len % 2 = 1 then 0x10 ||| (path &&& 0xF) else 0
  let path_len1 := if path_len % 2 = 1 then path_len - 1 else path_len
  let first_byte := if terminating then first_byte0 ||| 0x20 else first_byte0
  if path_len1 = 0 then some [first_byte]
  else
    match int_of_ascii_digits [first_byte] with
    | none => none
    | some n =>
      if 256 < path_len1 * 4 then none
      else
        match to_bytes_be_checked (n >>> (256 - path_len1 * 4)) (path_len1 / 2) with
        | none => none
        | some remaining_bytes => some ([first_byte] ++ remaining_bytes)

/-- Loop body of common_nibble_prefix. The source compares the nibbles
(a >> 252) and (b >> 252) on every iteration without ever shifting a or b,
and accumulates (prefix >> 4) | (a & (0xF << 252)). The fuel argument is
the number of remaining iterations, i the current index. -/
def cnp_go (a b : Nat) : Nat → Nat → Nat → Nat × Nat
  | 0, i, pre => (pre, i)
  | rem + 1, i, pre =>
    let a_nib := (a >>> 252) &&& 0xF
    let b_nib := (b >>> 252) &&& 0xF
    if a_nib ≠ b_nib then (pre, i)
    else cnp_go a b rem (i + 1) ((pre >>> 4) ||| (a &&& (0xF <<< 252)))

/-- common_nibble_prefix from the source (renamed with a fn suffix). -/
def common_nibble_prefix_fn (a b a_len b_len : Nat) : Nat × Nat :=
  cnp_go a b (min a_len b_len) 0 0

/-- The mpt work fields of a Step that the engine reads and writes
(flat attribute names exactly as mpt_proof_trace.py accesses them). -/
structure Step where
  mpt_mode : Nat
  mpt_mode_on_finish : Nat
  mpt_current_root : List Nat
  mpt_write_root : List Nat
  mpt_fail_lookup : Nat
  mpt_lookup_key : Nat
  mpt_lookup_key_nibbles : Nat
  mpt_lookup_nibble_depth : Nat
  mpt_parent_node_step : Nat
  mpt_value : List Nat
  mpt_global : Bool
  mpt_address_target : List Nat
  return_to_step : Nat
deriving DecidableEq

/-- key_part computed in the extension branch: the key shifted by the
consumed depth, masked to the most significant path_nibble_len nibbles
of the 256-bit window (the mask removes any bits at or above 2 ^ 256). -/
def extension_key_part (key depth path_nibble_len : Nat) : Nat :=
  let key_remainder := key <<< (depth * 4)
  let mask := (1 <<< (path_nibble_len * 4)) - 1
  let shifted_mask := mask <<< (256 - path_nibble_len * 4)
  key_remainder &&& shifted_mask

/-- reader_step_gen from the source, for a trie with lookup function
get_node, node hash mpt_hash and list decoder rlp_decode_list.
last is trac.last(), last_index is trac.length() - 1. -/
def reader_step (get_node mpt_hash : List Nat → List Nat)
    (rlp_decode_list : List Nat → List (List Nat))
    (last : Step) (last_index : Nat) : Option Step :=
  let next0 : Step := { last with mpt_parent_node_step := last_index }
  if last.mpt_lookup_key_nibbles = last.mpt_lookup_nibble_depth then
    if last.mpt_current_root.length < 32 then
      let value := last.mpt_current_root
      some { next0 with
        mpt_fail_lookup := if value = [] then 10 else next0.mpt_fail_lookup,
        mpt_value := value,
        mpt_mode := last.mpt_mode_on_finish }
    else
      let value := get_node last.mpt_current_root
      if mpt_hash value = next0.mpt_current_root then
        some { next0 with
          mpt_fail_lookup := if value = [] then 10 else next0.mpt_fail_lookup,
          mpt_value := value,
          mpt_mode := last.mpt_mode_on_finish }
      else none
  else
    let data := get_node last.mpt_current_root
    if mpt_hash data = next0.mpt_current_root then
      let data_li := rlp_decode_list data
      if data_li.length = 0 then
        some { next0 with
          mpt_current_root := List.replicate 32 0,
          mpt_value := [],
          mpt_fail_lookup := 1,
          mpt_mode := last.mpt_mode_on_finish }
      else if data_li.length = 2 then
        let encoded_path := data_li.headD []
        if 1 ≤ encoded_path.length then
          match decode_path encoded_path with
          | none => none
          | some (terminating, path_u256, path_nibble_len) =>
            if terminating then
              let key_remainder := last.mpt_lookup_key <<< (last.mpt_lookup_nibble_depth * 4)
              let new_depth := last.mpt_lookup_nibble_depth + path_nibble_len
              if new_depth = last.mpt_lookup_key_nibbles then
                if key_remainder = path_u256 then
                  some { next0 with
                    mpt_current_root := data_li.getD 1 [],
                    mpt_lookup_nibble_depth := new_depth }
                else
                  some { next0 with
                    mpt_fail_lookup := 2, mpt_mode := last.mpt_mode_on_finish }
              else if new_depth < last.mpt_lookup_key_nibbles then
                some { next0 with
                  mpt_fail_lookup := 3, mpt_mode := last.mpt_mode_on_finish }
              else
                some { next0 with
                  mpt_fail_lookup := 4, mpt_mode := last.mpt_mode_on_finish }
            else
              let new_depth := last.mpt_lookup_nibble_depth + path_nibble_len
              if last.mpt_lookup_key_nibbles ≤ new_depth then
                some { next0 with
                  mpt_fail_lookup := 5, mpt_mode := last.mpt_mode_on_finish }
              else
                if extension_key_part last.mpt_lookup_key last.mpt_lookup_nibble_depth
                    path_nibble_len ≠ path_u256 then
                  some { next0 with
                    mpt_fail_lookup := 6, mpt_mode := last.mpt_mode_on_finish }
                else
                  some { next0 with
                    mpt_current_root := data_li.getD 1 [],
                    mpt_lookup_nibble_depth := new_depth }
        else none
      else if data_li.length = 17 then
        if last.mpt_lookup_nibble_depth = last.mpt_lookup_key_nibbles then
          some { next0 with mpt_current_root := data_li.getD 16 [] }
        else
          let new_depth := last.mpt_lookup_nibble_depth + 1
          if new_depth ≤ 32 then
            let branch_lookup_nibble :=
              (last.mpt_lookup_key <<< (last.mpt_lookup_nibble_depth * 4)) >>> 252
            match data_li[branch_lookup_nibble]? with
            | some child =>
              some { next0 with
                mpt_current_root := child,
                mpt_lookup_nibble_depth := new_depth }
            | none => none
          else none
      else none
    else none

/-- write_start_step from the source. -/
def write_start_step (mpt_hash : List Nat → List Nat) (last : Step) : Step :=
  let root := if 32 ≤ last.mpt_value.length then mpt_hash last.mpt_value else last.mpt_value
  { last with mpt_current_root := root, mpt_mode := 3 }

/-- write_step from the source. Returns the successor step together with
the list of raw nodes passed to put_node during the step. The source
guard at line 247 tests len(parent_data_li) != 0, so every non-empty
node takes the pass-through branch; the subsequent elif arms test the
length against 2 and 17, which can only be evaluated when the length is
0, so they are unreachable and the length 0 case falls off the end of
the function returning None. -/
def write_step (get_node mpt_hash : List Nat → List Nat)
    (rlp_decode_list : List Nat → List (List Nat))
    (last parent : Step) : Option (Step × List (List Nat)) :=
  let next0 : Step := parent
  let parent_data := get_node parent.mpt_current_root
  if mpt_hash parent_data = parent.mpt_current_root then
    let parent_data_li := rlp_decode_list parent_data
    if parent_data_li.length ≠ 0 then
      some ({ next0 with mpt_write_root := last.mpt_write_root }, [])
    else
      none
  else none

/-- next_mpt_step from the source. The trie is selected from the step
fields; the RETURNING branch (mode 0) reads next.return_to_step before
the local name next is bound, raising UnboundLocalError, the WRITING
branch (mode 3) raises NotImplementedError, and any other unknown mode
falls off the end returning None: all three are none here. -/
def next_mpt_step (world_accounts : List Nat → List Nat)
    (account_storage : List Nat → List Nat → List Nat)
    (mpt_hash : List Nat → List Nat)
    (rlp_decode_list : List Nat → List (List Nat))
    (trace : List Step) : Option Step :=
  match trace.getLast? with
  | none => none
  | some last =>
    let trie := if last.mpt_global then world_accounts
      else account_storage last.mpt_address_target
    if last.mpt_mode = 0 then none
    else if last.mpt_mode = 1 then
      reader_step trie mpt_hash rlp_decode_list last (trace.length - 1)
    else if last.mpt_mode = 2 then some (write_start_step mpt_hash last)
    else none

/-! Concrete instantiations used by witnesses and by the evaluations of the
engine at inputs on which the source misbehaves. -/

/-- A reading step with one nibble left to read and an all-zero root. -/
def base_step : Step :=
  { mpt_mode := 1
    mpt_mode_on_finish := 0xff
    mpt_current_root := List.replicate 32 0
    mpt_write_root := []
    mpt_fail_lookup := 0
    mpt_lookup_key := 0
    mpt_lookup_key_nibbles := 1
    mpt_lookup_nibble_depth := 0
    mpt_parent_node_step := 0
    mpt_value := []
    mpt_global := true
    mpt_address_target := []
    return_to_step := 0 }

/-- Store returning empty node bytes for every reference. -/
def gn_zero : List Nat → List Nat := fun _ => []

/-- Hash returning a constant that matches no 32-byte root used here. -/
def hash_one : List Nat → List Nat := fun _ => [1]

/-- List decoder returning the empty list for every input. -/
def rd_empty : List Nat → List (List Nat) := fun _ => []

/-- Storage-trie selector returning the empty store for every address. -/
def storage_zero : List Nat → List Nat → List Nat := fun _ _ => []

def root_c4 : List Nat := List.replicate 32 3

def node_c4 : List Nat := [0xBB]

def gn_c4 : List Nat → List Nat := fun _ => node_c4

def hash_c4 : List Nat → List Nat := fun b => if b = node_c4 then root_c4 else []

/-- The parent node decodes as the terminating leaf [path B, value 5]. -/
def rd_c4 : List Nat → List (List Nat) := fun _ => [[0x3B], [5]]

/-- Writing step whose parent is a leaf at exactly the looked-up key:
key B (one nibble), depth 0, so the decoded leaf path matches the whole
remaining key. -/
def parent_c4 : Step :=
  { base_step with
    mpt_mode := 3
    mpt_current_root := root_c4
    mpt_lookup_key := 11 * 2 ^ 252
    mpt_lookup_key_nibbles := 1
    mpt_lookup_nibble_depth := 0
    mpt_write_root := [1] }

def last_c4 : Step := { parent_c4 with mpt_write_root := [9] }

def root_c5 : List Nat := List.replicate 32 5

def node_c5 : List Nat := [0xAA]

def gn_c5 : List Nat → List Nat := fun _ => node_c5

def hash_c5 : List Nat → List Nat := fun b => if b = node_c5 then root_c5 else []

/-- The current node decodes as the terminating leaf [path B, value h]. -/
def rd_c5 : List Nat → List (List Nat) := fun _ => [[0x3B], [0x68]]

/-- Reading step looking up the two-nibble key AB with the first nibble
already consumed (depth 1); the unread suffix is the single nibble B,
equal to the leaf path of rd_c5. -/
def step_c5 : Step :=
  { base_step with
    mpt_current_root := root_c5
    mpt_lookup_key := 0xAB * 2 ^ 248
    mpt_lookup_key_nibbles := 2
    mpt_lookup_nibble_depth := 1
    mpt_parent_node_step := 5 }

def root_c6 : List Nat := List.replicate 32 4

def node_c6 : List Nat := [0xEE]

def child_c6 : List Nat := [0xCC]

def gn_c6 : List Nat → List Nat := fun _ => node_c6

def hash_c6 : List Nat → List Nat := fun b => if b = node_c6 then root_c6 else []

/-- The current node decodes as the extension [path A, child]. -/
def rd_c6 : List Nat → List (List Nat) := fun _ => [[0x1A], child_c6]

/-- Reading step at depth 0 looking up the two-nibble key AB; the
extension consumes the matching first nibble A. -/
def step_c6 : Step :=
  { base_step with
    mpt_current_root := root_c6
    mpt_lookup_key := 0xAB * 2 ^ 248
    mpt_lookup_key_nibbles := 2
    mpt_lookup_nibble_depth := 0 }

/-- Arrived reading step whose current root is the inline empty value. -/
def step_c7 : Step :=
  { base_step with
    mpt_current_root := []
    mpt_lookup_key_nibbles := 0
    mpt_lookup_nibble_depth := 0 }

def root_c8 : List Nat := List.replicate 32 2

def node_c8 : List Nat := [7]

def gn_c8 : List Nat → List Nat := fun _ => node_c8

def hash_c8 : List Nat → List Nat := fun b => if b = node_c8 then root_c8 else []

/-- The current node decodes as a 17-item branch with empty slots. -/
def rd_c8 : List Nat → List (List Nat) := fun _ => List.replicate 17 []

/-- Reading step descending a branch at nibble depth 32 of the all-zero
64-nibble (32-byte) key. -/
def step_c8 : Step :=
  { base_step with
    mpt_current_root := root_c8
    mpt_lookup_key := 0
    mpt_lookup_key_nibbles := 64
    mpt_lookup_nibble_depth := 32 }

/-- Same branch descent one level higher, at nibble depth 31. -/
def step_c8b : Step := { step_c8 with mpt_lookup_nibble_depth := 31 }

/-- A step in RETURNING mode (mpt_mode 0). -/
def step_c9 : Step := { base_step with mpt_mode := 0 }

/-- C1: every trie node fetched from the store during a read or write step
is authenticated before use. Whenever the reader fetches (either the
expansion fetch below target depth, or the extra arrival fetch for a
32-byte root) and the hash of the returned bytes differs from the claimed
current_root, or the writer refetches the parent node and the hash differs
from the parent step current_root, the computation aborts (none), so no
decoded content of an unauthenticated node reaches the successor step. -/
theorem mpt_node_authentication
    (get_node mpt_hash : List Nat → List Nat)
    (rlp_decode_list : List Nat → List (List Nat))
    (last parent : Step) (last_index : Nat) :
    (last.mpt_lookup_key_nibbles ≠ last.mpt_lookup_nibble_depth →
      mpt_hash (get_node last.mpt_current_root) ≠ last.mpt_current_root →
      reader_step get_node mpt_hash rlp_decode_list last last_index = none)
    ∧ (last.mpt_lookup_key_nibbles = last.mpt_lookup_nibble_depth →
      ¬ last.mpt_current_root.length < 32 →
      mpt_hash (get_node last.mpt_current_root) ≠ last.mpt_current_root →
      reader_step get_node mpt_hash rlp_decode_list last last_index = none)
    ∧ (mpt_hash (get_node parent.mpt_current_root) ≠ parent.mpt_current_root →
      write_step get_node mpt_hash rlp_decode_list last parent = none) := by
  refine ⟨fun h1 h2 => ?_, fun h1 h2 h3 => ?_, fun h1 => ?_⟩
  · simp [reader_step, h1, h2]
  · simp [reader_step, h1, h2, h3]
  · simp [write_step, h1]

/-- Witness for C1: at a concrete store and hash whose digest never
matches the claimed roots, both engines abort. -/
theorem mpt_node_authentication_witness :
    reader_step gn_zero hash_one rd_empty base_step 0 = none
    ∧ write_step gn_zero hash_one rd_empty base_step base_step = none :=
  ⟨(mpt_node_authentication gn_zero hash_one rd_empty base_step base_step 0).1
      (by decide) (by decide),
    (mpt_node_authentication gn_zero hash_one rd_empty base_step base_step 0).2.2
      (by decide)⟩

/-- C2: the claimed round trip decode_path (encode_path nibbles count
terminating) = (terminating, nibbles, count) fails on the source code.
For the valid input (path nibble A, count 1, terminating) encode_path
yields the single byte 30 (the least significant, zero, nibble of the
path is folded into the flag byte instead of the most significant one)
and decoding it returns a path whose first nibble is 0, not the original
A (the low bytes moreover hold space-padding garbage); for even counts
of at least 2 encode_path aborts, because the source rebinds the name
path to the flag byte and then applies int() to that byte object. -/
theorem path_codec_roundtrip_fails :
    encode_path (10 * 2 ^ 252) 1 true = some [0x30]
    ∧ (decode_path [0x30]).map (fun t => (t.1, t.2.1 >>> 252, t.2.2)) = some (true, 0, 1)
    ∧ decode_path [0x30] ≠ some (true, 10 * 2 ^ 252, 1)
    ∧ encode_path (10 * 2 ^ 252) 2 true = none := by decide

/-- C3: the claimed common-prefix correctness fails on the source code.
The loop in common_nibble_prefix never shifts its operands, so every
iteration compares the same most significant nibble: on a = 12... and
b = 13... (two nibbles each) it returns length 2 although the nibbles at
position 1 differ (2 versus 3), violating pairwise equality up to the
returned length. -/
theorem common_nibble_prefix_ignores_later_nibbles :
    (common_nibble_prefix_fn (0x12 * 2 ^ 248) (0x13 * 2 ^ 248) 2 2).2 = 2
    ∧ ((0x12 * 2 ^ 248) >>> 248) &&& 0xF ≠ ((0x13 * 2 ^ 248) >>> 248) &&& 0xF := by
  decide

/-- C4: the claimed matching-leaf rewrite never executes. The guard in
write_step takes the pass-through branch for every node whose decoded
list is non-empty, so even when the parent decodes as a terminating
2-item leaf whose path reaches exactly lookup_key_nibbles and whose
path nibble B equals the remaining key nibble (conjuncts two to five),
the engine merely copies
last.mpt_write_root into the successor and performs no put_node
(the put log is empty) instead of replacing the leaf value,
re-encoding, persisting, and hashing. -/
theorem write_step_leaf_rewrite_unreachable :
    write_step gn_c4 hash_c4 rd_c4 last_c4 parent_c4
      = some ({ parent_c4 with mpt_write_root := [9] }, [])
    ∧ (rd_c4 (gn_c4 parent_c4.mpt_current_root)).length = 2
    ∧ (decode_path [0x3B]).map (fun t => (t.1, t.2.1 >>> 252, t.2.2)) = some (true, 11, 1)
    ∧ parent_c4.mpt_lookup_key >>> 252 = 11
    ∧ parent_c4.mpt_lookup_nibble_depth + 1 = parent_c4.mpt_lookup_key_nibbles := by
  decide

/-- C5: the claimed leaf-match dispatch fails on the source code. At
depth 1 of the two-nibble key AB, the current node is a leaf whose path
is exactly the unread suffix B (conjuncts two and three), so the claim
requires the successor to stay READING with the leaf value as new
current_root; but key_remainder is the key shifted left by 4*depth on
unbounded integers, so the consumed nibble A survives above bit 255,
while the decoded path additionally carries space-padding garbage in its
low bytes where the shifted key has zeros (that padding alone already
breaks the comparison at depth 0); the equality with the decoded path
fails and the engine instead reports fail_lookup = 2 and finishes. -/
theorem reader_leaf_match_misfires :
    reader_step gn_c5 hash_c5 rd_c5 step_c5 0
      = some { step_c5 with
          mpt_parent_node_step := 0
          mpt_fail_lookup := 2
          mpt_mode := step_c5.mpt_mode_on_finish }
    ∧ (decode_path [0x3B]).map (fun t => (t.1, t.2.1 >>> 252, t.2.2)) = some (true, 11, 1)
    ∧ (step_c5.mpt_lookup_key >>> (252 - 4 * step_c5.mpt_lookup_nibble_depth)) &&& 0xF
      = 11 := by decide

/-- C6: the claimed extension dispatch fails on the source code in its
descend arm. The authenticated current node decodes as a one-nibble
non-terminating extension whose nibble A equals the corresponding key
nibble (conjuncts two and three) and whose length is on-track (conjunct
four), so the claim requires the successor to descend into the child
with the depth advanced; but the decoded path carries space-padding
garbage (0x20 bytes) below its nibbles where key_part, the shifted key
masked to the top nibbles, has zeros, so the equality can never hold for
a padded path and the engine reports fail_lookup 6 and finishes instead
of descending. -/
theorem reader_extension_match_misfires :
    reader_step gn_c6 hash_c6 rd_c6 step_c6 4
      = some { step_c6 with
          mpt_parent_node_step := 4
          mpt_fail_lookup := 6
          mpt_mode := step_c6.mpt_mode_on_finish }
    ∧ (decode_path [0x1A]).map (fun t => (t.1, t.2.1 >>> 252, t.2.2)) = some (false, 10, 1)
    ∧ (step_c6.mpt_lookup_key >>> 252) &&& 0xF = 10
    ∧ step_c6.mpt_lookup_nibble_depth + 1 < step_c6.mpt_lookup_key_nibbles := by
  decide

/-- C7: arrival of the reader. When lookup_nibble_depth equals
lookup_key_nibbles, an inline root (length below 32) is resolved without
any store access (the result does not depend on get_node), while a
32-byte root costs one authenticated fetch whose result becomes the
value; in both cases an empty resolved value sets fail_lookup to 10, the
value is stored in the value field, and the mode becomes
mode_on_finish; a fetch whose hash mismatches aborts. -/
theorem reader_arrival_resolves
    (get_node get_node2 mpt_hash : List Nat → List Nat)
    (rlp_decode_list : List Nat → List (List Nat))
    (last : Step) (last_index : Nat)
    (harr : last.mpt_lookup_key_nibbles = last.mpt_lookup_nibble_depth) :
    (last.mpt_current_root.length < 32 →
      reader_step get_node mpt_hash rlp_decode_list last last_index
        = some { last with
            mpt_parent_node_step := last_index
            mpt_fail_lookup := if last.mpt_current_root = [] then 10 else last.mpt_fail_lookup
            mpt_value := last.mpt_current_root
            mpt_mode := last.mpt_mode_on_finish }
      ∧ reader_step get_node mpt_hash rlp_decode_list last last_index
        = reader_step get_node2 mpt_hash rlp_decode_list last last_index)
    ∧ (¬ last.mpt_current_root.length < 32 →
      (mpt_hash (get_node last.mpt_current_root) = last.mpt_current_root →
        reader_step get_node mpt_hash rlp_decode_list last last_index
          = some { last with
              mpt_parent_node_step := last_index
              mpt_fail_lookup :=
                if get_node last.mpt_current_root = [] then 10 else last.mpt_fail_lookup
              mpt_value := get_node last.mpt_current_root
              mpt_mode := last.mpt_mode_on_finish })
      ∧ (mpt_hash (get_node last.mpt_current_root) ≠ last.mpt_current_root →
        reader_step get_node mpt_hash rlp_decode_list last last_index = none)) := by
  refine ⟨fun hlen => ⟨?_, ?_⟩, fun hlen => ⟨fun hok => ?_, fun hbad => ?_⟩⟩
  · simp [reader_step, harr, hlen]
  · simp [reader_step, harr, hlen]
  · simp [reader_step, harr, hlen, hok]
  · simp [reader_step, harr, hlen, hbad]

/-- Witness for C7: arriving with the inline empty root resolves to the
empty value with fail_lookup 10 and transitions to mode_on_finish. -/
theorem reader_arrival_resolves_witness :
    reader_step gn_zero hash_one rd_empty step_c7 3
      = some { step_c7 with
          mpt_parent_node_step := 3
          mpt_fail_lookup := 10
          mpt_value := []
          mpt_mode := step_c7.mpt_mode_on_finish } :=
  ((reader_arrival_resolves gn_zero gn_zero hash_one rd_empty step_c7 3 rfl).1
      (by decide)).1

/-- C8: the claimed depth bound of 64 fails on the source code. On a
branch descent at depth 32 of the all-zero 64-nibble key (a 17-item
authenticated node, conjunct two), the new depth 33 is within the
claimed bound of 64 (conjunct three), yet the engine aborts, because the
source asserts new_depth at most 32; the same descent from depth 31
still succeeds and advances the depth by exactly 1. -/
theorem branch_descent_aborts_at_depth_33 :
    reader_step gn_c8 hash_c8 rd_c8 step_c8 0 = none
    ∧ (rd_c8 (gn_c8 step_c8.mpt_current_root)).length = 17
    ∧ step_c8.mpt_lookup_nibble_depth + 1 ≤ 64
    ∧ reader_step gn_c8 hash_c8 rd_c8 step_c8b 0
      = some { step_c8b with
          mpt_parent_node_step := 0
          mpt_current_root := []
          mpt_lookup_nibble_depth := 32 } := by decide

/-- C9: the claimed RETURNING dispatch fails on the source code. For a
trace whose last step has mpt_mode 0 the source reads
next.return_to_step before the local name next is bound, raising
UnboundLocalError, so next_mpt_step aborts instead of producing a copy
of the step at return_to_step carrying the value and root across. -/
theorem returning_dispatch_aborts :
    next_mpt_step gn_zero storage_zero hash_one rd_empty [step_c9] = none
    ∧ step_c9.mpt_mode = 0 := by decide

/-- C10: decode_path on the empty byte string returns the triple
(non-terminating, zero path, zero nibble count) without aborting,
while an encoded length over 33 bytes or a first byte with either
reserved flag bit set aborts. -/
theorem decode_path_edge_cases :
    decode_path [] = some (false, 0, 0)
    ∧ (∀ bs : List Nat, 33 < bs.length → decode_path bs = none)
    ∧ (∀ (b : Nat) (bs : List Nat), ((b &&& 0xF0) >>> 4) &&& 12 ≠ 0 →
        decode_path (b :: bs) = none) := by
  refine ⟨rfl, fun bs h => ?_, fun b bs h => ?_⟩
  · match bs, h with
    | b :: rest, h =>
      have : ¬ rest.length + 1 ≤ 33 := by simp at h; omega
      simp [decode_path, this]
  · by_cases hl : bs.length + 1 ≤ 33
    · simp [decode_path, hl, h]
    · simp [decode_path, hl]

/-- Witness for C10: a 34-byte encoding and the flag byte F0 are both
rejected by decode_path. -/
theorem decode_path_edge_cases_witness :
    decode_path (List.replicate 34 0) = none ∧ decode_path [0xF0] = none :=
  ⟨decode_path_edge_cases.2.1 (List.replicate 34 0) (by decide),
    decode_path_edge_cases.2.2 0xF0 [] (by decide)⟩
